import Mathlib

/-!
Verification of the job-polling state machine and URL helpers of
`frontend/app.js` (AI Model Generator frontend).

The JavaScript source is shallowly embedded: the browser timer system is
modelled by a list of live interval ids plus a fresh-id counter, each
execution of the `poll` closure (lines 675-716 of `app.js`) is a pure
function from the observed fetch outcome and the current clock to a new
state plus a list of UI side effects, and a polling session is a fold of
such ticks in which an interval tick fires only while its timer id is
still live.
-/

/-- The job record decoded from `GET <base>/jobs/{id}` (see the status
query JSON shape in the backend interface). `result_url` and `error` are
nullable fields. -/
structure Job where
  job_id : String
  job_type : String
  status : String
  progress : Int
  message : String
  result_url : Option String := none
  error : Option String := none
deriving Repr, DecidableEq

/-- UI / logging side effects performed by the frontend code, in program
order. `observed` is the per-tick observer update (progress bar width,
status message text, elapsed-time label, lines 686-691); the others map to
`showResult`, `showToast`, `addToHistory`, `console.error`, and the call
into `startJobPolling`. -/
inductive Event where
  | logError
  | observed (job : Job) (elapsedSec : Nat)
  | showResultEv (job : Job)
  | toastSuccessCompleted
  | historyAdd (job : Job)
  | toastError (msg : String)
  | toastProcessing
  | pollingStarted (jobId jobType : String)
deriving Repr, DecidableEq

/-- Combined frontend state: the `state.pollingTimer` handle and
`state.currentJob` fields of the `state` object, the closure-captured
`startTime` baseline of the current session, and the browser timer
system (`active` = ids of interval timers that are still live, `nextId` =
next fresh id handed out by `setInterval`; browsers hand out positive
ids, so `nextId` starts at 1). -/
structure Sys where
  pollingTimer : Option Nat
  currentJob : Option Job
  startTime : Nat
  active : List Nat
  nextId : Nat
deriving Repr, DecidableEq

/-- The initial frontend state: `state.pollingTimer = null`,
`state.currentJob = null`, no live timers. -/
def sys0 : Sys :=
  { pollingTimer := none, currentJob := none, startTime := 0, active := [], nextId := 1 }

/-- `clearInterval(h)`: removes the timer with id `h` from the live set;
a no-op when `h` is null or names no live timer. -/
def clearIntervalJS : Option Nat → List Nat → List Nat
  | none, act => act
  | some id, act => act.filter (fun i => i != id)

/-- A status string is terminal when it is the string compared against at
lines 694 and 703. -/
def isTerminalStatus (s : String) : Bool :=
  s == "completed" || s == "failed"

/-- `Math.round((now - startTime) / 1000)` at line 690, on a non-negative
millisecond difference: round-half-up is `(d + 500) / 1000` in `Nat`. -/
def elapsedSeconds (startTime now : Nat) : Nat :=
  (now - startTime + 500) / 1000

/-- JavaScript `v || dflt` on a nullable string: the default is taken when
the value is null or the empty string (both falsy). -/
def jsOrElse (v : Option String) (dflt : String) : String :=
  match v with
  | some s => if s == "" then dflt else s
  | none => dflt

/-- What one execution of the `poll` closure observes: either the `catch`
path was taken (network error thrown by `fetch`, a non-2xx response, or a
JSON parse failure), or a decoded job record. -/
inductive TickInput where
  | transportError
  | ok (job : Job)
deriving Repr, DecidableEq

/-- One execution of the `poll` closure (lines 675-716). On transport
failure the error is logged and nothing else happens. On a successful
response the observer UI is updated, then the status is checked: on
`completed` the interval is cleared and the result shown, toasted and
added to history; on `failed` the interval is cleared and an error toast
shows `job.error || t(failed)`; any other status falls through. In every
successful branch `state.currentJob = job` runs last (line 711). -/
def poll (input : TickInput) (now : Nat) (s : Sys) : Sys × List Event :=
  match input with
  | .transportError => (s, [.logError])
  | .ok job =>
    let e := elapsedSeconds s.startTime now
    if job.status == "completed" then
      ({ s with active := clearIntervalJS s.pollingTimer s.active,
                currentJob := some job },
       [.observed job e, .showResultEv job, .toastSuccessCompleted, .historyAdd job])
    else if job.status == "failed" then
      ({ s with active := clearIntervalJS s.pollingTimer s.active,
                currentJob := some job },
       [.observed job e, .toastError (jsOrElse job.error "failed")])
    else
      ({ s with currentJob := some job }, [.observed job e])

/-- `startJobPolling(jobId, jobType)` (lines 650-723): clears the previous
interval when the stored handle is truthy, resets `state.currentJob` to a
record holding only the id and type, resets the elapsed-time baseline,
issues the initial `poll()` (whose response is processed strictly after
this function returns, so it is the first tick of the session), and
installs a fresh interval timer whose id is stored in
`state.pollingTimer`. -/
def startJobPolling (jobId jobType : String) (now : Nat) (s : Sys) : Sys :=
  let act := if s.pollingTimer.isSome then clearIntervalJS s.pollingTimer s.active else s.active
  let id := s.nextId
  { pollingTimer := some id
    currentJob := some { job_id := jobId, job_type := jobType, status := "",
                         progress := 0, message := "", result_url := none, error := none }
    startTime := now
    active := act ++ [id]
    nextId := id + 1 }

/-- A tick of the current session fires iff the stored handle names a
timer that is still live. -/
def tickFires (s : Sys) : Bool :=
  match s.pollingTimer with
  | none => false
  | some id => decide (id ∈ s.active)

/-- Run a polling session over the sequence of tick outcomes, each paired
with the clock value at which it would be processed. A tick executes only
while the session timer is live; once the interval has been cleared no
further tick runs and no further effect is produced. -/
def runTicks : List (TickInput × Nat) → Sys → Sys × List Event
  | [], s => (s, [])
  | (i, now) :: rest, s =>
    if tickFires s then
      let p := poll i now s
      let q := runTicks rest p.1
      (q.1, p.2 ++ q.2)
    else
      runTicks rest s

/-- An event is a terminal observation when it is an observer update
carrying a job in a terminal status. -/
def isTerminalObservation : Event → Bool
  | .observed j _ => isTerminalStatus j.status
  | _ => false

/-- A tick outcome is non-terminal when it is a transport failure or a
job whose status is not terminal. -/
def nonTerminalInput : TickInput → Bool
  | .transportError => true
  | .ok j => !isTerminalStatus j.status

/-- Modelled from the spec: the repository frontend source has no
standalone `stop()` function (the public contract section of the spec
lists one); modelled from the spec wording "cancels the active timer if
any; safe to call when nothing is running". -/
def stop (s : Sys) : Sys :=
  { s with active := clearIntervalJS s.pollingTimer s.active, pollingTimer := none }

/-- State invariant maintained by the poller: at most one live interval
timer, every live timer is the stored handle, and the stored handle is
older than the fresh-id counter. -/
def SysInv (s : Sys) : Bool :=
  decide (s.active.length ≤ 1) &&
  s.active.all (fun i => s.pollingTimer == some i) &&
  (match s.pollingTimer with
   | none => true
   | some id => decide (id < s.nextId))

/-- Outcome of a submission request, as seen by `submitFaceGeneration`
(lines 510-547): a 2xx response with a `job_id`, a non-2xx response whose
JSON body carries a nullable `detail`, or a thrown network error. -/
inductive SubmitResponse where
  | ok (job_id : String)
  | httpError (detail : Option String)
  | networkError (msg : String)
deriving Repr, DecidableEq

/-- `submitFaceGeneration` (lines 510-547), after the request resolves:
on a 2xx response a processing toast is shown and `startJobPolling` is
invoked with the returned job id; on a non-2xx response the function
throws `new Error(error.detail || "Generation failed")`, which its own
`catch` surfaces as an error toast, and polling is never started; a
thrown network error is surfaced the same way. -/
def submitFaceGeneration (resp : SubmitResponse) (now : Nat) (s : Sys) : Sys × List Event :=
  match resp with
  | .ok jid =>
      (startJobPolling jid "face" now s, [.toastProcessing, .pollingStarted jid "face"])
  | .httpError detail => (s, [.toastError (jsOrElse detail "Generation failed")])
  | .networkError m => (s, [.toastError m])

/-- `computeDefaultApiBase` (lines 8-14), parameterised by the values the
browser supplies for `window.location.hostname` and
`window.location.origin`. -/
def computeDefaultApiBase (hostname origin : String) : String :=
  if hostname == "localhost" || hostname == "127.0.0.1" then "http://localhost:8000/api"
  else origin ++ "/api"

/-- `(url || "").trim()`: drops whitespace from both ends, written over
the character list so that concrete values evaluate. -/
def jsTrim (s : String) : String :=
  String.mk (((s.data.dropWhile Char.isWhitespace).reverse.dropWhile Char.isWhitespace).reverse)

/-- Whether a string ends in a slash, written over the character list so
that concrete values evaluate. -/
def endsWithSlash (s : String) : Bool :=
  s.data.getLast? == some '/'

/-- `value.replace(/\/$/, "")`: removes one trailing slash when present. -/
def stripOneTrailingSlash (s : String) : String :=
  if endsWithSlash s then String.mk s.data.dropLast else s

/-- `setApiBase(url)` (lines 16-24), returning the value stored into
`API_BASE`: the trimmed value falls back to the computed default when
empty, otherwise one trailing slash is removed. `none` models a null or
undefined argument. -/
def setApiBase (url : Option String) (hostname origin : String) : String :=
  let value := jsTrim (url.getD "")
  if value == "" then computeDefaultApiBase hostname origin
  else stripOneTrailingSlash value

/-- `getBackendOrigin` (lines 26-32), parameterised by the browser URL
parser: `parseOrigin b` is the origin of `b` when `new URL(b)` succeeds
and `none` when the constructor throws; the `catch` arm returns the fixed
fallback. The function is total: it returns a string for every input. -/
def getBackendOrigin (parseOrigin : String → Option String) (apiBase : String) : String :=
  match parseOrigin apiBase with
  | some origin => origin
  | none => "http://localhost:8000"

/-- Sample completed job used by concrete witnesses. -/
def jobDone : Job :=
  { job_id := "job-1", job_type := "face", status := "completed",
    progress := 100, message := "done", result_url := some "/storage/faces/job-1.png",
    error := none }

/-- Sample in-progress job used by concrete witnesses. -/
def jobProcessing : Job :=
  { job_id := "job-1", job_type := "face", status := "processing",
    progress := 40, message := "working", result_url := none, error := none }

/-- Sample failed job used by concrete witnesses. -/
def jobFailed : Job :=
  { job_id := "job-1", job_type := "face", status := "failed",
    progress := 10, message := "stopped", result_url := none,
    error := some "upstream timeout" }

theorem mem_clearInterval_self (l : List Nat) (id : Nat) :
    id ∉ clearIntervalJS (some id) l := by
  intro h
  have := List.of_mem_filter h
  simp at this

theorem tickFires_start (j t : String) (n : Nat) (s : Sys) :
    tickFires (startJobPolling j t n s) = true := by
  simp [tickFires, startJobPolling]

theorem poll_nonterminal_step (i : TickInput) (now : Nat) (s : Sys)
    (h : nonTerminalInput i = true) :
    tickFires (poll i now s).1 = tickFires s ∧
    (poll i now s).2.filter isTerminalObservation = [] := by
  cases i with
  | transportError =>
      simp [poll, isTerminalObservation]
  | ok j =>
      simp only [nonTerminalInput, Bool.not_eq_true'] at h
      have hc : (j.status == "completed") = false := by
        simp [isTerminalStatus] at h
        simp [h.1]
      have hf : (j.status == "failed") = false := by
        simp [isTerminalStatus] at h
        simp [h.2]
      simp [poll, hc, hf, tickFires, isTerminalObservation, isTerminalStatus]

theorem poll_terminal_step (j : Job) (now : Nat) (s : Sys)
    (h : isTerminalStatus j.status = true) :
    tickFires (poll (TickInput.ok j) now s).1 = false ∧
    ((poll (TickInput.ok j) now s).2.filter isTerminalObservation).length = 1 := by
  have hcases := Bool.or_eq_true_iff.mp h
  rcases hcases with hc | hf
  · constructor
    · simp only [poll, hc, if_true]
      cases hp : s.pollingTimer with
      | none => simp [tickFires, hp]
      | some id =>
          simp only [tickFires, hp, clearIntervalJS]
          simp [List.mem_filter]
    · simp [poll, hc, isTerminalObservation, isTerminalStatus]
  · have hc : (j.status == "completed") = false := by
      have : j.status = "failed" := by simpa using hf
      simp [this]
    constructor
    · simp only [poll, hc, hf, if_false, if_true]
      cases hp : s.pollingTimer with
      | none => simp [tickFires, hp]
      | some id =>
          simp only [tickFires, hp, clearIntervalJS]
          simp [List.mem_filter]
    · simp [poll, hc, hf, isTerminalObservation, isTerminalStatus]

theorem runTicks_dead (l : List (TickInput × Nat)) (s : Sys)
    (h : tickFires s = false) :
    runTicks l s = (s, []) := by
  induction l with
  | nil => rfl
  | cons x rest ih =>
      cases x with
      | mk i now => simp [runTicks, h, ih]

theorem runTicks_terminal_stops (pre : List (TickInput × Nat)) (j : Job) (n : Nat)
    (post : List (TickInput × Nat)) (s : Sys)
    (hs : tickFires s = true)
    (hpre : ∀ x ∈ pre, nonTerminalInput x.1 = true)
    (hj : isTerminalStatus j.status = true) :
    runTicks (pre ++ (TickInput.ok j, n) :: post) s
      = runTicks (pre ++ [(TickInput.ok j, n)]) s ∧
    ((runTicks (pre ++ [(TickInput.ok j, n)]) s).2.filter isTerminalObservation).length = 1 := by
  induction pre generalizing s with
  | nil =>
      have hterm := poll_terminal_step j n s hj
      constructor
      · simp only [List.nil_append, runTicks, hs, if_true]
        rw [runTicks_dead post _ hterm.1]
      · simp only [List.nil_append, runTicks, hs, if_true]
        simpa using hterm.2
  | cons x pre ih =>
      cases x with
      | mk i m =>
          have hx : nonTerminalInput i = true := hpre (i, m) (by simp)
          have hstep := poll_nonterminal_step i m s hx
          have hs1 : tickFires (poll i m s).1 = true := by rw [hstep.1]; exact hs
          have hrest : ∀ y ∈ pre, nonTerminalInput y.1 = true := by
            intro y hy
            exact hpre y (by simp [hy])
          have hih := ih (poll i m s).1 hs1 hrest
          constructor
          · simp only [List.cons_append, runTicks, hs, if_true, List.append_eq]
            rw [hih.1]
          · simp only [List.cons_append, runTicks, hs, if_true, List.append_eq]
            simp only [List.filter_append, List.length_append, hstep.2, List.length_nil,
              Nat.zero_add]
            exact hih.2

/-- Demo URL parser used by the C10 witness: succeeds on the default API
base and fails on a plainly unparsable string. -/
def parseOriginDemo : String → Option String :=
  fun b => if b == "http://localhost:8000/api" then some "http://localhost:8000" else none

/-- C1: in a polling session started by startJobPolling, as soon as a
successful status response carries status completed or failed, the
interval is cleared in the same tick that observes it: appending any
further would-be ticks after the terminal one changes neither the final
state nor the emitted effects, and exactly one terminal observation is
delivered to the observer. -/
theorem terminal_tick_cancels_and_observes_once
    (j0 t0 : String) (n0 : Nat) (s0 : Sys)
    (pre post : List (TickInput × Nat)) (j : Job) (n : Nat)
    (hpre : ∀ x ∈ pre, nonTerminalInput x.1 = true)
    (hj : isTerminalStatus j.status = true) :
    runTicks (pre ++ (TickInput.ok j, n) :: post) (startJobPolling j0 t0 n0 s0)
      = runTicks (pre ++ [(TickInput.ok j, n)]) (startJobPolling j0 t0 n0 s0) ∧
    ((runTicks (pre ++ [(TickInput.ok j, n)]) (startJobPolling j0 t0 n0 s0)).2.filter
        isTerminalObservation).length = 1 :=
  runTicks_terminal_stops pre j n post (startJobPolling j0 t0 n0 s0)
    (tickFires_start j0 t0 n0 s0) hpre hj

/-- Witness for C1 at a concrete session: one processing tick, then a
completed tick, then a would-be further tick that never runs. -/
theorem terminal_tick_cancels_and_observes_once_w :
    runTicks ([(TickInput.ok jobProcessing, 2000)]
        ++ (TickInput.ok jobDone, 4000) :: [(TickInput.ok jobDone, 6000)])
        (startJobPolling "job-1" "face" 0 sys0)
      = runTicks ([(TickInput.ok jobProcessing, 2000)] ++ [(TickInput.ok jobDone, 4000)])
        (startJobPolling "job-1" "face" 0 sys0) ∧
    ((runTicks ([(TickInput.ok jobProcessing, 2000)] ++ [(TickInput.ok jobDone, 4000)])
        (startJobPolling "job-1" "face" 0 sys0)).2.filter isTerminalObservation).length = 1 :=
  terminal_tick_cancels_and_observes_once "job-1" "face" 0 sys0
    [(TickInput.ok jobProcessing, 2000)] [(TickInput.ok jobDone, 6000)] jobDone 4000
    (by decide) (by decide)

/-- C2: from any state satisfying the poller invariant, startJobPolling
cancels whatever timer was live before installing the fresh one, so
exactly the new timer is live afterwards, the stored handle names it, and
the invariant (hence at most one live timer at every moment) is
preserved; when no timer is running the cancellation is a no-op and the
call is equally safe. -/
theorem startJobPolling_single_active_timer (j t : String) (n : Nat) (s : Sys)
    (h : SysInv s = true) :
    (startJobPolling j t n s).active = [s.nextId] ∧
    (startJobPolling j t n s).pollingTimer = some s.nextId ∧
    SysInv (startJobPolling j t n s) = true := by
  simp only [SysInv, Bool.and_eq_true, List.all_eq_true, decide_eq_true_eq] at h
  obtain ⟨⟨hlen, hall⟩, hfresh⟩ := h
  have hact : (if s.pollingTimer.isSome then clearIntervalJS s.pollingTimer s.active
      else s.active) = [] := by
    cases hp : s.pollingTimer with
    | none =>
        simp only [hp, Option.isSome_none, Bool.false_eq_true, if_false]
        rw [List.eq_nil_iff_forall_not_mem]
        intro a ha
        have := hall a ha
        rw [hp] at this
        simp at this
    | some id =>
        simp only [hp, Option.isSome_some, if_true, clearIntervalJS]
        rw [List.eq_nil_iff_forall_not_mem]
        intro a ha
        have hmem := List.mem_filter.mp ha
        have := hall a hmem.1
        rw [hp] at this
        simp at this
        simp [this] at hmem
  refine ⟨?_, ?_, ?_⟩
  · simp [startJobPolling, hact]
  · simp [startJobPolling]
  · simp [SysInv, startJobPolling, hact]

/-- Witness for C2: two successive starts from the initial state leave
exactly the second timer live. -/
theorem startJobPolling_single_active_timer_w :
    (startJobPolling "b" "face" 7 (startJobPolling "a" "face" 3 sys0)).active
        = [(startJobPolling "a" "face" 3 sys0).nextId] ∧
    (startJobPolling "b" "face" 7 (startJobPolling "a" "face" 3 sys0)).pollingTimer
        = some (startJobPolling "a" "face" 3 sys0).nextId ∧
    SysInv (startJobPolling "b" "face" 7 (startJobPolling "a" "face" 3 sys0)) = true :=
  startJobPolling_single_active_timer "b" "face" 7 (startJobPolling "a" "face" 3 sys0)
    (by decide)

/-- C3: a poll tick whose status fetch fails in transport only logs the
error: the state is unchanged, no terminal side effect is emitted, and in
a run the loop simply retries, the remaining ticks executing exactly as
if the failing tick had not happened apart from the log line. -/
theorem transport_error_swallowed_keeps_timer (now : Nat) (s : Sys)
    (rest : List (TickInput × Nat)) (h : tickFires s = true) :
    poll TickInput.transportError now s = (s, [Event.logError]) ∧
    runTicks ((TickInput.transportError, now) :: rest) s
      = ((runTicks rest s).1, Event.logError :: (runTicks rest s).2) := by
  constructor
  · rfl
  · simp [runTicks, h, poll]

/-- Witness for C3 at a concrete session with one failing tick followed
by a successful one. -/
theorem transport_error_swallowed_keeps_timer_w :
    poll TickInput.transportError 1000 (startJobPolling "job-1" "face" 0 sys0)
      = (startJobPolling "job-1" "face" 0 sys0, [Event.logError]) ∧
    runTicks ((TickInput.transportError, 1000) :: [(TickInput.ok jobProcessing, 2000)])
        (startJobPolling "job-1" "face" 0 sys0)
      = ((runTicks [(TickInput.ok jobProcessing, 2000)]
            (startJobPolling "job-1" "face" 0 sys0)).1,
         Event.logError :: (runTicks [(TickInput.ok jobProcessing, 2000)]
            (startJobPolling "job-1" "face" 0 sys0)).2) :=
  transport_error_swallowed_keeps_timer 1000 (startJobPolling "job-1" "face" 0 sys0)
    [(TickInput.ok jobProcessing, 2000)] (by decide)

/-- C4: a successful response whose status is neither completed nor
failed is treated as non-terminal: the tick only updates the observer UI
and the stored current job, the timer set is untouched, and the session
timer keeps firing. -/
theorem nonterminal_status_keeps_polling (j : Job) (now : Nat) (s : Sys)
    (h : isTerminalStatus j.status = false) :
    poll (TickInput.ok j) now s
      = ({ s with currentJob := some j },
         [Event.observed j (elapsedSeconds s.startTime now)]) ∧
    tickFires (poll (TickInput.ok j) now s).1 = tickFires s := by
  have hc : (j.status == "completed") = false := by
    simp only [isTerminalStatus, Bool.or_eq_false_iff] at h
    exact h.1
  have hf : (j.status == "failed") = false := by
    simp only [isTerminalStatus, Bool.or_eq_false_iff] at h
    exact h.2
  constructor
  · simp [poll, hc, hf]
  · simp [poll, hc, hf, tickFires]

/-- Witness for C4 at a processing-status tick of a concrete session. -/
theorem nonterminal_status_keeps_polling_w :
    poll (TickInput.ok jobProcessing) 2000 (startJobPolling "job-1" "face" 0 sys0)
      = ({ startJobPolling "job-1" "face" 0 sys0 with currentJob := some jobProcessing },
         [Event.observed jobProcessing
            (elapsedSeconds (startJobPolling "job-1" "face" 0 sys0).startTime 2000)]) ∧
    tickFires (poll (TickInput.ok jobProcessing) 2000
        (startJobPolling "job-1" "face" 0 sys0)).1
      = tickFires (startJobPolling "job-1" "face" 0 sys0) :=
  nonterminal_status_keeps_polling jobProcessing 2000
    (startJobPolling "job-1" "face" 0 sys0) (by decide)

/-- C5: the stop operation cancels the live timer when the stored handle
names one (afterwards that id is no longer live and no tick of the
session fires), and when no timer is stored it is a no-op that leaves the
state exactly as it was; being a total function it raises no exception. -/
theorem stop_cancels_and_noop (s s0 : Sys) (id : Nat)
    (h1 : s.pollingTimer = some id) (h2 : s0.pollingTimer = none) :
    id ∉ (stop s).active ∧ tickFires (stop s) = false ∧ stop s0 = s0 := by
  refine ⟨?_, ?_, ?_⟩
  · simp only [stop, h1]
    exact mem_clearInterval_self s.active id
  · simp [tickFires, stop]
  · cases s0 with
    | mk pt cj st act nid =>
        simp only at h2
        subst h2
        simp [stop, clearIntervalJS]

/-- Witness for C5: stop after a start cancels that timer, and stop on
the initial state changes nothing. -/
theorem stop_cancels_and_noop_w :
    1 ∉ (stop (startJobPolling "a" "face" 0 sys0)).active ∧
    tickFires (stop (startJobPolling "a" "face" 0 sys0)) = false ∧
    stop sys0 = sys0 :=
  stop_cancels_and_noop (startJobPolling "a" "face" 0 sys0) sys0 1 (by decide) (by decide)

/-- C6 counterexample: the claim says the stored API base never ends in a
slash, but the source removes only one trailing slash, so a configured
value ending in two slashes is stored still ending in one. -/
theorem setApiBase_trailing_slash_cex :
    endsWithSlash (setApiBase (some "http://example.com//") "app.example.com"
        "http://app.example.com") = true := by
  decide

/-- C6 amended: a non-empty configured value has exactly one trailing
slash removed (the stored base may still end in a slash when the value
ended in several), and an empty or unset value resolves the API base from
the page origin: the fixed localhost default for localhost or 127.0.0.1
hosts, otherwise origin ++ /api. -/
theorem setApiBase_resolution (u hostname origin : String)
    (hne : (jsTrim u == "") = false)
    (hsl : endsWithSlash (jsTrim u) = true) :
    setApiBase (some u) hostname origin = String.mk (jsTrim u).data.dropLast ∧
    setApiBase none hostname origin = computeDefaultApiBase hostname origin ∧
    setApiBase (some "") hostname origin = computeDefaultApiBase hostname origin ∧
    computeDefaultApiBase "localhost" origin = "http://localhost:8000/api" ∧
    computeDefaultApiBase "127.0.0.1" origin = "http://localhost:8000/api" ∧
    ((hostname == "localhost") = false → (hostname == "127.0.0.1") = false →
      computeDefaultApiBase hostname origin = origin ++ "/api") := by
  refine ⟨?_, ?_, ?_, ?_, ?_, ?_⟩
  · simp [setApiBase, hne, stripOneTrailingSlash, hsl]
  · rfl
  · rfl
  · rfl
  · rfl
  · intro h1 h2
    simp [computeDefaultApiBase, h1, h2]

/-- Witness for C6 amended at a value with a single trailing slash and a
non-local hostname. -/
theorem setApiBase_resolution_w :
    setApiBase (some "http://example.com/api/") "example.com" "http://example.com"
        = String.mk (jsTrim "http://example.com/api/").data.dropLast ∧
    setApiBase none "example.com" "http://example.com"
        = computeDefaultApiBase "example.com" "http://example.com" ∧
    setApiBase (some "") "example.com" "http://example.com"
        = computeDefaultApiBase "example.com" "http://example.com" ∧
    computeDefaultApiBase "localhost" "http://example.com" = "http://localhost:8000/api" ∧
    computeDefaultApiBase "127.0.0.1" "http://example.com" = "http://localhost:8000/api" ∧
    (("example.com" == "localhost") = false → ("example.com" == "127.0.0.1") = false →
      computeDefaultApiBase "example.com" "http://example.com" = "http://example.com" ++ "/api") :=
  setApiBase_resolution "http://example.com/api/" "example.com" "http://example.com"
    (by decide) (by decide)

/-- C7: within one session the baseline is fixed (a successful tick never
changes startTime), every successful tick reports the elapsed seconds
computed from that baseline as its first observer update, and the
reported value is monotonically non-decreasing in the clock. -/
theorem elapsed_monotone (j1 : Job) (n1 n2 : Nat) (s : Sys) (h : n1 ≤ n2) :
    elapsedSeconds s.startTime n1 ≤ elapsedSeconds s.startTime n2 ∧
    (poll (TickInput.ok j1) n1 s).2.head?
      = some (Event.observed j1 (elapsedSeconds s.startTime n1)) ∧
    (poll (TickInput.ok j1) n1 s).1.startTime = s.startTime := by
  refine ⟨?_, ?_, ?_⟩
  · exact Nat.div_le_div_right (Nat.add_le_add_right (Nat.sub_le_sub_right h _) 500)
  · simp only [poll]
    split
    · rfl
    · split <;> rfl
  · simp only [poll]
    split
    · rfl
    · split <;> rfl

/-- Witness for C7 at two concrete clock values of one session. -/
theorem elapsed_monotone_w :
    elapsedSeconds (startJobPolling "job-1" "face" 0 sys0).startTime 2000
        ≤ elapsedSeconds (startJobPolling "job-1" "face" 0 sys0).startTime 4000 ∧
    (poll (TickInput.ok jobProcessing) 2000 (startJobPolling "job-1" "face" 0 sys0)).2.head?
        = some (Event.observed jobProcessing
            (elapsedSeconds (startJobPolling "job-1" "face" 0 sys0).startTime 2000)) ∧
    (poll (TickInput.ok jobProcessing) 2000
        (startJobPolling "job-1" "face" 0 sys0)).1.startTime
      = (startJobPolling "job-1" "face" 0 sys0).startTime :=
  elapsed_monotone jobProcessing 2000 4000 (startJobPolling "job-1" "face" 0 sys0)
    (by decide)

/-- C8: a non-2xx submission response leaves the whole state unchanged
(in particular startJobPolling is never invoked and no timer appears) and
surfaces exactly one error toast carrying the detail field of the
response body, falling back to the fixed message when detail is null. -/
theorem submit_non2xx_no_polling (d : String) (now : Nat) (s : Sys)
    (hd : (d == "") = false) :
    submitFaceGeneration (SubmitResponse.httpError (some d)) now s
      = (s, [Event.toastError d]) ∧
    submitFaceGeneration (SubmitResponse.httpError none) now s
      = (s, [Event.toastError "Generation failed"]) := by
  constructor
  · simp [submitFaceGeneration, jsOrElse, hd]
  · rfl

/-- Witness for C8 at a concrete failed submission. -/
theorem submit_non2xx_no_polling_w :
    submitFaceGeneration (SubmitResponse.httpError (some "Missing API key")) 0 sys0
      = (sys0, [Event.toastError "Missing API key"]) ∧
    submitFaceGeneration (SubmitResponse.httpError none) 0 sys0
      = (sys0, [Event.toastError "Generation failed"]) :=
  submit_non2xx_no_polling "Missing API key" 0 sys0 (by decide)

/-- C9: every successful poll tick, terminal ones included, stores the
full fetched record wholesale as the current job. -/
theorem poll_overwrites_currentJob (j : Job) (now : Nat) (s : Sys) :
    (poll (TickInput.ok j) now s).1.currentJob = some j := by
  simp only [poll]
  split
  · rfl
  · split <;> rfl

/-- C10: getBackendOrigin is total and never throws: whatever the URL
parser does on the stored API base, it returns the parsed origin when
parsing succeeds and the fixed localhost fallback when the parser fails. -/
theorem getBackendOrigin_total (p q : String → Option String) (b c o : String)
    (h1 : p b = some o) (h2 : q c = none) :
    getBackendOrigin p b = o ∧ getBackendOrigin q c = "http://localhost:8000" := by
  constructor
  · simp [getBackendOrigin, h1]
  · simp [getBackendOrigin, h2]

/-- Witness for C10 with a concrete parser, one parsable and one
unparsable base. -/
theorem getBackendOrigin_total_w :
    getBackendOrigin parseOriginDemo "http://localhost:8000/api" = "http://localhost:8000" ∧
    getBackendOrigin parseOriginDemo "not a url" = "http://localhost:8000" :=
  getBackendOrigin_total parseOriginDemo parseOriginDemo
    "http://localhost:8000/api" "not a url" "http://localhost:8000" (by decide) (by decide)
